import Mathlib

set_option maxHeartbeats 1000000
set_option maxRecDepth 100000

/-! Shallow embedding of the falcon repository's two Python scripts:
`scripts/generate_test_report.py` (test-result aggregator and HTML renderer)
and `test_download_integration.py` (integration test harness for the
downloader executable).

Modelling conventions: XML inputs, child-process outcomes and filesystem
observations are explicit data supplied by an environment; Python floats are
rationals; Python `print` calls are collected into `List String` logs;
`sys.exit` codes are returned as integers.  Python `try`/`finally` is
translated by computing the body's value first and applying the `finally`
effect afterwards, and an exception that no enclosing `except` catches is
returned as an explicit `crashed` outcome. -/

/-! ## Data model of the report generator (scripts/generate_test_report.py) -/

/-- One `<testcase>` element of an artifact, after attribute extraction:
`get('name', '')`, `get('classname', '')`, `float(get('time', 0))`, and the
optional `<failure>` / `<error>` children carrying `get('message', '')`
(`some m` means the child element is present with message `m`). -/
structure XmlCase where
  name : String
  classname : String
  time : Rat
  failure : Option String
  error : Option String
deriving DecidableEq

/-- The `<testsuite>` element of one artifact: attributes `name` (optional),
`tests`, `failures`, `errors` (Python `int(...)`, so possibly negative),
`time` (Python `float(...)`), plus the `<testcase>` children in order. -/
structure XmlSuiteElem where
  name : Option String
  tests : Int
  failures : Int
  errors : Int
  time : Rat
  cases : List XmlCase
deriving DecidableEq

/-- One file as seen by `parse_xml_file`:
`malformed err` means `ET.parse` (or an `int`/`float` attribute conversion)
raises, which the `except Exception` clause catches; `noSuite` means the
root has no `testsuite` child (`find` returns `None`); `suite s` is a
recognizable artifact. -/
inductive XmlFile where
  | malformed (err : String)
  | noSuite
  | suite (s : XmlSuiteElem)
deriving DecidableEq

/-- The per-case dictionary appended to `test_cases` in `parse_xml_file`. -/
structure TestCaseResult where
  name : String
  classname : String
  time : Rat
  status : String
  message : String
deriving DecidableEq

/-- The per-suite dictionary returned by `parse_xml_file`. -/
structure SuiteResult where
  name : String
  tests : Int
  failures : Int
  errors : Int
  time : Rat
  test_cases : List TestCaseResult
deriving DecidableEq

/-- `os.path.basename`, for the `name` attribute default in
`parse_xml_file` (`test_suite.get('name', os.path.basename(xml_file))`). -/
def basename (p : String) : String :=
  (p.splitOn "/").getLastD p

/-- The body of the `for test_case in test_suite.findall('testcase')` loop:
`status` starts as `'PASS'` and `failure_msg` as `''`; if a `<failure>`
child is present they become `'FAIL'` and its message; if an `<error>`
child is present they are then overwritten by `'ERROR'` and its message. -/
def parseCase (tc : XmlCase) : TestCaseResult :=
  let status := "PASS"
  let failure_msg := ""
  let sm :=
    match tc.failure with
    | some m => ("FAIL", m)
    | none => (status, failure_msg)
  let sm2 :=
    match tc.error with
    | some m => ("ERROR", m)
    | none => sm
  { name := tc.name, classname := tc.classname, time := tc.time,
    status := sm2.1, message := sm2.2 }

/-- `parse_xml_file`: returns the printed diagnostics and the parsed suite
(`None` on a malformed file or a file without a `testsuite` child).

The local variable `time` is initialized from the suite's `time` attribute
and then REASSIGNED by every iteration of the per-case loop
(`time = float(test_case.get('time', 0))`), so the returned suite `time` is
the last test case's `time` attribute whenever the case list is nonempty;
the fold below reproduces exactly that rebinding. -/
def parse_xml_file (xml_file : String) (f : XmlFile) : List String × Option SuiteResult :=
  match f with
  | .malformed e => (["Error parsing " ++ xml_file ++ ": " ++ e], none)
  | .noSuite => ([], none)
  | .suite s =>
    let loop := s.cases.foldl
      (fun (acc : Rat × List TestCaseResult) tc =>
        (tc.time, acc.2 ++ [parseCase tc]))
      (s.time, [])
    ([], some { name := s.name.getD (basename xml_file),
                tests := s.tests, failures := s.failures, errors := s.errors,
                time := loop.1, test_cases := loop.2 })

/-- The accumulator of the `for xml_file in xml_files` loop in
`generate_html_report`. -/
structure ReportAcc where
  logs : List String
  all_results : List SuiteResult
  total_tests : Int
  total_failures : Int
  total_errors : Int
  total_time : Rat

/-- One iteration of the discovery loop: parse the file (collecting its
diagnostics) and, if parsing succeeded, append the result and add its
declared counts and its `time` field to the running totals. -/
def processStep (acc : ReportAcc) (fp : String × XmlFile) : ReportAcc :=
  let pr := parse_xml_file fp.1 fp.2
  match pr.2 with
  | some result =>
    { logs := acc.logs ++ pr.1
      all_results := acc.all_results ++ [result]
      total_tests := acc.total_tests + result.tests
      total_failures := acc.total_failures + result.failures
      total_errors := acc.total_errors + result.errors
      total_time := acc.total_time + result.time }
  | none => { acc with logs := acc.logs ++ pr.1 }

/-- The whole discovery loop of `generate_html_report` (lines 76-89). -/
def processFiles (files : List (String × XmlFile)) : ReportAcc :=
  files.foldl processStep { logs := [], all_results := [],
                            total_tests := 0, total_failures := 0,
                            total_errors := 0, total_time := 0 }

/-! ## HTML rendering -/

/-- Left-pad a digit string with zeros to width `n`. -/
def padZeros (s : String) (n : Nat) : String :=
  if s.length < n then String.mk (List.replicate (n - s.length) '0') ++ s else s

/-- Python fixed-point formatting `f"{x:.prec f}"` on the rational value:
round to `prec` decimal places and print with exactly `prec` fraction
digits.  `scaled` is `⌊x·10^prec + 1/2⌋`, computed on the numerator and
denominator (`⌊a/b⌋ = fdiv a b` for `b > 0`, and
`x·10^prec + 1/2 = (2·num·10^prec + den) / (2·den)`).  Python formats the
nearest binary double and breaks ties to even; on the inputs of this
development the values are exactly representable and no tie arises, so
decimal rounding is an exact model. -/
def fmtFixed (prec : Nat) (x : Rat) : String :=
  let scaled : Int := Int.fdiv (2 * x.num * ((10 ^ prec : Nat) : Int) + (x.den : Int))
    (2 * (x.den : Int))
  let sign := if scaled < 0 then "-" else ""
  let n := scaled.natAbs
  let ip := n / 10 ^ prec
  let fp := n % 10 ^ prec
  sign ++ toString ip ++ "." ++ padZeros (toString fp) prec

/-- The literal document text preceding the `{total_tests}` splice in the
big f-string of `generate_html_report` (CSS braces appear literally as
`{{`/`}}` in the source and are escaped as \x7b/\x7d here). -/
def headPart1 : String := "<!DOCTYPE html>\n<html lang=\"zh-CN\">\n<head>\n    <meta charset=\"UTF-8\">\n    <meta name=\"viewport\" content=\"width=device-width, initial-scale=1.0\">\n    <title>Falcon 下载器 - 测试报告</title>\n    <style>\n        body \x7b\n            font-family: Arial, sans-serif;\n            margin: 0;\n            padding: 20px;\n            background-color: #f5f5f5;\n        \x7d\n        .container \x7b\n            max-width: 1200px;\n            margin: 0 auto;\n            background-color: white;\n            padding: 20px;\n            border-radius: 8px;\n            box-shadow: 0 2px 4px rgba(0,0,0,0.1);\n        \x7d\n        h1 \x7b\n            color: #333;\n            border-bottom: 2px solid #4CAF50;\n            padding-bottom: 10px;\n        \x7d\n        .summary \x7b\n            display: flex;\n            justify-content: space-between;\n            margin: 20px 0;\n            padding: 15px;\n            background-color: #f9f9f9;\n            border-radius: 5px;\n        \x7d\n        .summary-item \x7b\n            text-align: center;\n        \x7d\n        .summary-value \x7b\n            font-size: 24px;\n            font-weight: bold;\n        \x7d\n        .summary-label \x7b\n            color: #666;\n            font-size: 14px;\n        \x7d\n        .pass \x7b color: #4CAF50; \x7d\n        .fail \x7b color: #f44336; \x7d\n        .error \x7b color: #ff9800; \x7d\n\n        table \x7b\n            width: 100%;\n            border-collapse: collapse;\n            margin: 20px 0;\n        \x7d\n        th, td \x7b\n            padding: 12px;\n            text-align: left;\n            border-bottom: 1px solid #ddd;\n        \x7d\n        th \x7b\n            background-color: #4CAF50;\n            color: white;\n        \x7d\n        tr:hover \x7b\n            background-color: #f5f5f5;\n        \x7d\n        .status-pass \x7b color: #4CAF50; font-weight: bold; \x7d\n        .status-fail \x7b color: #f44336; font-weight: bold; \x7d\n        .status-error \x7b color: #ff9800; font-weight: bold; \x7d\n\n        .test-details \x7b\n            margin-top: 20px;\n        \x7d\n        .test-case \x7b\n            margin: 10px 0;\n            padding: 10px;\n            border-left: 4px solid #ddd;\n            background-color: #fafafa;\n        \x7d\n        .test-case.fail \x7b\n            border-left-color: #f44336;\n            background-color: #ffebee;\n        \x7d\n        .test-case.error \x7b\n            border-left-color: #ff9800;\n            background-color: #fff3e0;\n        \x7d\n\n        .timestamp \x7b\n            color: #999;\n            font-size: 12px;\n            text-align: right;\n            margin-top: 20px;\n        \x7d\n    </style>\n</head>\n<body>\n    <div class=\"container\">\n        <h1>🦅 Falcon 下载器 - 测试报告</h1>\n\n        <div class=\"summary\">\n            <div class=\"summary-item\">\n                <div class=\"summary-value\">"

/-- Between `{total_tests}` and the passed-count splice. -/
def headPart2 : String := "</div>\n                <div class=\"summary-label\">总测试数</div>\n            </div>\n            <div class=\"summary-item\">\n                <div class=\"summary-value pass\">"

/-- Between the passed-count splice and `{total_failures}`. -/
def headPart3 : String := "</div>\n                <div class=\"summary-label\">通过</div>\n            </div>\n            <div class=\"summary-item\">\n                <div class=\"summary-value fail\">"

/-- Between `{total_failures}` and `{total_errors}`. -/
def headPart4 : String := "</div>\n                <div class=\"summary-label\">失败</div>\n            </div>\n            <div class=\"summary-item\">\n                <div class=\"summary-value error\">"

/-- Between `{total_errors}` and `{total_time:.2f}`. -/
def headPart5 : String := "</div>\n                <div class=\"summary-label\">错误</div>\n            </div>\n            <div class=\"summary-item\">\n                <div class=\"summary-value\">"

/-- From the `s` unit after the total time to the end of the head
f-string (`<tbody>`). -/
def headPart6 : String := "s</div>\n                <div class=\"summary-label\">总耗时</div>\n            </div>\n        </div>\n\n        <h2>📊 测试套件详情</h2>\n        <table>\n            <thead>\n                <tr>\n                    <th>测试套件</th>\n                    <th>测试数</th>\n                    <th>通过</th>\n                    <th>失败</th>\n                    <th>错误</th>\n                    <th>耗时</th>\n                </tr>\n            </thead>\n            <tbody>"

/-- The head f-string (source lines 92-227): summary block with the five
summary values spliced in; the passed value is computed inline as
`total_tests - total_failures - total_errors`. -/
def htmlHead (total_tests total_failures total_errors : Int) (total_time : Rat) : String :=
  headPart1 ++ toString total_tests ++
  headPart2 ++ toString (total_tests - total_failures - total_errors) ++
  headPart3 ++ toString total_failures ++
  headPart4 ++ toString total_errors ++
  headPart5 ++ fmtFixed 2 total_time ++
  headPart6

/-- Pieces of the per-suite row f-string (source lines 231-239). -/
def rowPart1 : String := "\n                <tr>\n                    <td>"

/-- Between the suite name and its test count. -/
def rowPart2 : String := "</td>\n                    <td>"

/-- Between the test count and the passed count. -/
def rowPart3 : String := "</td>\n                    <td class=\"pass\">"

/-- Between the passed count and the failure count. -/
def rowPart4 : String := "</td>\n                    <td class=\"fail\">"

/-- Between the failure count and the error count. -/
def rowPart5 : String := "</td>\n                    <td class=\"error\">"

/-- Between the error count and the elapsed time. -/
def rowPart6 : String := "</td>\n                    <td>"

/-- After the elapsed time (its `s` unit and the row close). -/
def rowPart7 : String := "s</td>\n                </tr>"

/-- One row of the per-suite table: `passed` is computed as
`result['tests'] - result['failures'] - result['errors']` (line 230), with
no clamping. -/
def suiteRowHtml (result : SuiteResult) : String :=
  let passed := result.tests - result.failures - result.errors
  rowPart1 ++ result.name ++
  rowPart2 ++ toString result.tests ++
  rowPart3 ++ toString passed ++
  rowPart4 ++ toString result.failures ++
  rowPart5 ++ toString result.errors ++
  rowPart6 ++ fmtFixed 2 result.time ++
  rowPart7

/-- The static text between the table and the failure-detail section
(source lines 241-246). -/
def htmlMid : String := "\n            </tbody>\n        </table>\n\n        <h2>📝 测试详情</h2>\n        <div class=\"test-details\">"

/-- Pieces of the per-case detail f-string (source lines 255-261). -/
def detPart1 : String := "\n                    <div class=\"test-case "

/-- Between the css class and the qualified test name. -/
def detPart2 : String := "\">\n                        <div><strong>测试:</strong> "

/-- Between the qualified name and the status css class. -/
def detPart3 : String := "</div>\n                        <div><strong>状态:</strong> <span class=\"status-"

/-- Between the status css class and the status text. -/
def detPart4 : String := "\">"

/-- Between the status text and the case time. -/
def detPart5 : String := "</span></div>\n                        <div><strong>耗时:</strong> "

/-- Between the case time and the optional message block. -/
def detPart6 : String := "s</div>\n                        "

/-- Opening of the optional message block. -/
def detMsg1 : String := "<div><strong>错误信息:</strong> <pre>"

/-- Closing of the optional message block. -/
def detMsg2 : String := "</pre></div>"

/-- Closing of one detail entry. -/
def detPart7 : String := "\n                    </div>"

/-- One failure-detail entry: css class is `"fail"` for status `'FAIL'`
and `"error"` otherwise; the message block is emitted only when
`test_case['message']` is a non-empty string. -/
def caseDetailHtml (tc : TestCaseResult) : String :=
  let css_class := if tc.status = "FAIL" then "fail" else "error"
  detPart1 ++ css_class ++
  detPart2 ++ tc.classname ++ "." ++ tc.name ++
  detPart3 ++ css_class ++
  detPart4 ++ tc.status ++
  detPart5 ++ fmtFixed 3 tc.time ++
  detPart6 ++ (if tc.message ≠ "" then detMsg1 ++ tc.message ++ detMsg2 else "") ++
  detPart7

/-- One suite's contribution to the failure-detail section (source lines
249-261): a `<h3>` header plus the entries of its non-PASS cases, emitted
only when `result['failures'] > 0 or result['errors'] > 0`. -/
def suiteDetailHtml (result : SuiteResult) : String :=
  if result.failures > 0 ∨ result.errors > 0 then
    "<h3>" ++ result.name ++ "</h3>" ++
    result.test_cases.foldl
      (fun acc tc => if tc.status ≠ "PASS" then acc ++ caseDetailHtml tc else acc) ""
  else ""

/-- The failure-detail section: the loop over `all_results` appending each
suite's contribution. -/
def detailSectionHtml (all_results : List SuiteResult) : String :=
  all_results.foldl (fun acc result => acc ++ suiteDetailHtml result) ""

/-- The closing f-string (source lines 263-271) with the generation
timestamp spliced in. -/
def htmlTail (now : String) : String :=
  "\n        </div>\n\n        <div class=\"timestamp\">\n            报告生成时间: " ++ now ++ "\n        </div>\n    </div>\n</body>\n</html>"

/-- The whole `html_content` value: head, then the suite rows, then the
static middle, then the failure-detail section, then the tail. -/
def htmlReport (acc : ReportAcc) (now : String) : String :=
  htmlHead acc.total_tests acc.total_failures acc.total_errors acc.total_time ++
  acc.all_results.foldl (fun h result => h ++ suiteRowHtml result) "" ++
  htmlMid ++
  detailSectionHtml acc.all_results ++
  htmlTail now

/-- What `generate_html_report` produces when it reaches the write: the
parsed suites, the four totals, and the document written to
`output_file`. -/
structure ReportData where
  all_results : List SuiteResult
  total_tests : Int
  total_failures : Int
  total_errors : Int
  total_time : Rat
  html : String

/-- `generate_html_report`: `xml_files` is the result of
`glob.glob(os.path.join(results_dir, '*.xml'))`.  If it is empty the
function prints `"No XML files found in <dir>"` and returns WITHOUT
writing anything; otherwise every file is parsed (malformed ones only
contribute their diagnostic), the report is built and written, and the
success message is printed.  Returns (stdout lines, written report). -/
def generate_html_report (results_dir output_file : String)
    (xml_files : List (String × XmlFile)) (now : String) :
    List String × Option ReportData :=
  if xml_files = [] then
    (["No XML files found in " ++ results_dir], none)
  else
    let acc := processFiles xml_files
    (acc.logs ++ ["HTML报告已生成: " ++ output_file],
     some { all_results := acc.all_results,
            total_tests := acc.total_tests,
            total_failures := acc.total_failures,
            total_errors := acc.total_errors,
            total_time := acc.total_time,
            html := htmlReport acc now })

/-- `main` of the report generator: exit 1 on a missing argument or a
non-directory, otherwise run `generate_html_report` (the `os.makedirs`
call is directory plumbing with no observable effect here) and finish
normally, i.e. with process exit code 0.  Returns
(exit code, stdout lines, written report). -/
def report_main (argc : Nat) (isdir : Bool) (results_dir : String)
    (xml_files : List (String × XmlFile)) (now : String) :
    Int × List String × Option ReportData :=
  if argc ≠ 2 then
    (1, ["用法: python generate_test_report.py <测试结果目录>"], none)
  else if isdir = false then
    (1, ["错误: 目录不存在 - " ++ results_dir], none)
  else
    let output_file := results_dir ++ "/../test_reports/test_report.html"
    let r := generate_html_report results_dir output_file xml_files now
    (0, r.1, r.2)

/-! ## Integration harness (test_download_integration.py) -/

/-- Outcome of one synchronous `subprocess.run` call:
`completed rc out err` is a normal exit with that return code and captured
output; `timeout` is a raised `subprocess.TimeoutExpired`; `raised e` is
any other exception, e.g. `FileNotFoundError` when the executable cannot
be launched. -/
inductive RunResult where
  | completed (returncode : Int) (stdout stderr : String)
  | timeout
  | raised (e : String)
deriving DecidableEq

/-- Python's substring test `pat in s`. -/
def strOccurs (s pat : String) : Bool :=
  (s.splitOn pat).length ≠ 1

/-- Environment observed by `test_http_download`: the run outcome, whether
the output file exists afterwards, its size, and its content. -/
structure HttpEnv where
  run : RunResult
  fileExists : Bool
  fileSize : Nat
  content : String

/-- What one harness scenario leaves behind: its printed lines, its boolean
verdict, and whether its destination file still exists when it returns. -/
structure ScenarioResult where
  log : List String
  verdict : Bool
  fileAfter : Bool

/-- `test_http_download` (scenario A): run the executable with a 30 s
timeout; success requires exit code 0, an existing output file and the
substring `"slideshow"` in its content.  `except TimeoutExpired` and
`except Exception` both degrade to a `False` verdict; the `finally`
block removes the output file if it exists, so the file never survives
the scenario. -/
def test_http_download (env : HttpEnv) : ScenarioResult :=
  let body : List String × Bool :=
    match env.run with
    | .completed rc out err =>
      if rc ≠ 0 then
        (["❌ Download failed with exit code " ++ toString rc,
          "STDOUT: " ++ out, "STDERR: " ++ err], false)
      else if env.fileExists then
        let l := ["✅ Download successful! File size: " ++ toString env.fileSize ++ " bytes"]
        if strOccurs env.content "\"slideshow\"" then
          (l ++ ["✅ Content verification passed"], true)
        else
          (l ++ ["❌ Content verification failed"], false)
      else
        (["❌ Output file not found"], false)
    | .timeout => (["❌ Download timed out"], false)
    | .raised e => (["❌ Error: " ++ e], false)
  { log := ["Testing HTTP download..."] ++ body.1, verdict := body.2, fileAfter := false }

/-- Environment for one (url, filename) pair of `test_multiple_downloads`. -/
structure MultiItemEnv where
  run : RunResult
  fileExists : Bool
deriving DecidableEq

/-- One iteration of the loop in `test_multiple_downloads`: the item
succeeds (contributing 1 to `success_count`) iff the run completed with
return code 0 and the destination exists; the bare `except:` swallows
timeouts and launch failures; the per-item `finally` removes the
destination, so it never survives the iteration.  Returns
(printed lines, success contribution, file exists after). -/
def multiItemRun (filename : String) (e : MultiItemEnv) : List String × Nat × Bool :=
  let body : List String × Nat :=
    match e.run with
    | .completed rc _ _ =>
      if rc = 0 ∧ e.fileExists then (["    ✅ " ++ filename], 1)
      else (["    ❌ " ++ filename], 0)
    | .timeout => (["    ❌ " ++ filename], 0)
    | .raised _ => (["    ❌ " ++ filename], 0)
  (["  Downloading " ++ filename ++ "..."] ++ body.1, body.2, false)

/-- Result of `test_multiple_downloads`: log, overall verdict, and the
existence of the three destination files when it returns. -/
structure MultiResult where
  log : List String
  verdict : Bool
  filesAfter : List Bool

/-- `test_multiple_downloads` (scenario B): the three (url, filename)
pairs of the fixed `urls` list are run sequentially (the fixed-length
loop is unrolled); overall success requires `success_count == len(urls)`,
i.e. all 3. -/
def test_multiple_downloads (e1 e2 e3 : MultiItemEnv) : MultiResult :=
  let r1 := multiItemRun "uuid.json" e1
  let r2 := multiItemRun "ip.json" e2
  let r3 := multiItemRun "user-agent.json" e3
  let success_count := r1.2.1 + r2.2.1 + r3.2.1
  { log := ["\nTesting multiple downloads..."] ++ r1.1 ++ r2.1 ++ r3.1 ++
      ["\n  Results: " ++ toString success_count ++ "/3 downloads successful"],
    verdict := success_count == 3,
    filesAfter := [r1.2.2, r2.2.2, r3.2.2] }

/-- Environment observed by `test_resume`: whether the initial
`subprocess.Popen` raises (e.g. the executable cannot be launched), the
partial file state recorded after terminate/wait, the second
`subprocess.run`'s outcome, and the destination's final state. -/
structure ResumeEnv where
  popenExn : Option String
  firstExists : Bool
  firstSize : Nat
  secondRun : RunResult
  finalExists : Bool
  finalSize : Nat
deriving DecidableEq

/-- How `test_resume` ends: `ok verdict fileAfter` is a normal return;
`crashed e fileAfter` is an exception that no handler in the function
catches, propagating out of the scenario. -/
inductive ResumeOutcome where
  | ok (verdict : Bool) (fileAfter : Bool)
  | crashed (e : String) (fileAfter : Bool)
deriving DecidableEq

/-- Destination-file existence when the scenario ends, on either path. -/
def ResumeOutcome.fileLeft : ResumeOutcome → Bool
  | .ok _ fa => fa
  | .crashed _ fa => fa

/-- Result of `test_resume`: its printed lines and how it ended. -/
structure ResumeResult where
  log : List String
  outcome : ResumeOutcome

/-- `test_resume` (scenario C).  The first attempt
(`subprocess.Popen` / `sleep` / `terminate` / `wait`, lines 104-118) is
NOT inside any `try`, so an exception raised by `Popen` propagates and
crashes the scenario (no destination file was created, since the process
never started).  Otherwise the partial size is reported if the file
exists, and the second attempt runs under `try`/bare-`except`/`finally`:
success requires exit code 0, an existing destination and final size
exactly 1024; the `finally` removes the destination. -/
def test_resume (env : ResumeEnv) : ResumeResult :=
  let log0 := ["\nTesting resume functionality..."]
  match env.popenExn with
  | some e => { log := log0, outcome := .crashed e false }
  | none =>
    let log1 := log0 ++
      (if env.firstExists then
        ["  Partial download: " ++ toString env.firstSize ++ " bytes"] else [])
    let body : List String × Bool :=
      match env.secondRun with
      | .completed rc _ _ =>
        if rc = 0 ∧ env.finalExists then
          let l := ["  Final download: " ++ toString env.finalSize ++ " bytes"]
          if env.finalSize = 1024 then
            (l ++ ["  ✅ Resume functionality working"], true)
          else
            (l ++ ["  ❌ Resume functionality failed"], false)
        else
          (["  ❌ Resume test failed"], false)
      | .timeout => (["  ❌ Resume test error"], false)
      | .raised _ => (["  ❌ Resume test error"], false)
    { log := log1 ++ body.1, outcome := .ok body.2 false }

/-- How a whole harness run ends: a normal `sys.exit(main())` with the
collected (name, verdict) pairs, or an uncaught exception. -/
inductive HarnessOutcome where
  | exited (code : Int) (results : List (String × Bool))
  | crashed (e : String)
deriving DecidableEq

/-- `main` of the harness: exit 1 when neither `build` is reachable nor the
cwd is `build`, exit 1 when `bin/falcon-cli` is missing, otherwise run the
three scenarios unconditionally in order, collect their verdicts, and
return 0 iff all of them passed (an exception escaping `test_resume`
also escapes `main`). -/
def harness_main (buildReachable cliExists : Bool) (ha : HttpEnv)
    (e1 e2 e3 : MultiItemEnv) (hr : ResumeEnv) : HarnessOutcome :=
  if buildReachable = false then .exited 1 []
  else if cliExists = false then .exited 1 []
  else
    let a := (test_http_download ha).verdict
    let b := (test_multiple_downloads e1 e2 e3).verdict
    match (test_resume hr).outcome with
    | .crashed e _ => .crashed e
    | .ok c _ =>
      let results := [("Basic HTTP Download", a), ("Multiple Downloads", b),
                      ("Resume Functionality", c)]
      let passed := (results.filter fun r => r.2).length
      .exited (if passed = results.length then 0 else 1) results

/-! ## Spec-side characterizations (used to state the claims) -/

/-- The suites that parse successfully, in discovery order ("the N
parseable suites" of the spec). -/
def parsedResults (files : List (String × XmlFile)) : List SuiteResult :=
  files.filterMap fun fp => (parse_xml_file fp.1 fp.2).2

/-- Concatenation of a list of strings. -/
def concatStrings (l : List String) : String :=
  l.foldr (fun a b => a ++ b) ""

/-- The spec's description of one suite's failure-detail contribution: an
entry exactly when `declaredFailureCount + declaredErrorCount > 0`,
listing exactly the cases whose status is not PASS. -/
def suiteDetailSpec (result : SuiteResult) : String :=
  if result.failures + result.errors > 0 then
    "<h3>" ++ result.name ++ "</h3>" ++
    concatStrings ((result.test_cases.filter fun tc => tc.status ≠ "PASS").map caseDetailHtml)
  else ""

/-- The spec's description of the whole failure-detail section. -/
def detailSectionSpec (all_results : List SuiteResult) : String :=
  concatStrings (all_results.map suiteDetailSpec)

/-- A process-level failure in the sense of the spec: nonzero exit,
timeout, or an exception while launching/running the executable. -/
def processFailure : RunResult → Prop
  | .completed rc _ _ => rc ≠ 0
  | .timeout => True
  | .raised _ => True

/-! ## Characterization lemmas for the discovery loop -/

/-- `parsedResults` on a cons splits on the head's parse result. -/
theorem parsedResults_cons (fp : String × XmlFile) (rest : List (String × XmlFile)) :
    parsedResults (fp :: rest) =
      match (parse_xml_file fp.1 fp.2).2 with
      | some r => r :: parsedResults rest
      | none => parsedResults rest := by
  unfold parsedResults
  cases h : (parse_xml_file fp.1 fp.2).2 <;> simp [List.filterMap_cons, h]

/-- The discovery loop, from any accumulator: the logs of every file are
collected in order, exactly the parseable suites are appended, and each
total is the accumulator's value plus the sum over the parseable suites. -/
theorem foldl_processStep (files : List (String × XmlFile)) :
    ∀ acc : ReportAcc,
      List.foldl processStep acc files =
        { logs := acc.logs ++ (files.map fun fp => (parse_xml_file fp.1 fp.2).1).flatten,
          all_results := acc.all_results ++ parsedResults files,
          total_tests := acc.total_tests + ((parsedResults files).map SuiteResult.tests).sum,
          total_failures :=
            acc.total_failures + ((parsedResults files).map SuiteResult.failures).sum,
          total_errors := acc.total_errors + ((parsedResults files).map SuiteResult.errors).sum,
          total_time := acc.total_time + ((parsedResults files).map SuiteResult.time).sum } := by
  induction files with
  | nil => intro acc; simp [parsedResults]
  | cons fp rest ih =>
    intro acc
    rw [List.foldl_cons, ih, parsedResults_cons]
    unfold processStep
    cases h : (parse_xml_file fp.1 fp.2).2 <;>
      simp [h, List.append_assoc, add_assoc]

/-- `processFiles` in closed form. -/
theorem processFiles_spec (files : List (String × XmlFile)) :
    processFiles files =
      { logs := (files.map fun fp => (parse_xml_file fp.1 fp.2).1).flatten,
        all_results := parsedResults files,
        total_tests := ((parsedResults files).map SuiteResult.tests).sum,
        total_failures := ((parsedResults files).map SuiteResult.failures).sum,
        total_errors := ((parsedResults files).map SuiteResult.errors).sum,
        total_time := ((parsedResults files).map SuiteResult.time).sum } := by
  unfold processFiles
  rw [foldl_processStep]
  simp

/-! ## Characterization lemmas for string accumulation -/

/-- A left fold that appends `g x` for every element equals the
concatenation of the mapped list. -/
theorem foldl_append_str {α : Type} (g : α → String) (l : List α) :
    ∀ acc : String,
      l.foldl (fun h x => h ++ g x) acc = acc ++ concatStrings (l.map g) := by
  induction l with
  | nil => intro acc; simp [concatStrings]
  | cons x xs ih =>
    intro acc
    rw [List.foldl_cons, ih]
    simp [concatStrings, String.append_assoc]

/-- A left fold that appends `g x` for the elements satisfying `p` equals
the concatenation over the filtered list. -/
theorem foldl_append_filter_str {α : Type} (p : α → Prop) [DecidablePred p]
    (g : α → String) (l : List α) :
    ∀ acc : String,
      l.foldl (fun h x => if p x then h ++ g x else h) acc
        = acc ++ concatStrings ((l.filter fun x => decide (p x)).map g) := by
  induction l with
  | nil => intro acc; simp [concatStrings]
  | cons x xs ih =>
    intro acc
    rw [List.foldl_cons, ih]
    by_cases h : p x <;>
      simp [h, List.filter_cons, concatStrings, String.append_assoc]

/-! ## Claim theorems -/

/-- C1: the summary's total elapsed time does NOT equal the sum of the
declared suite-level `time` attributes: because the local variable `time`
is reassigned by the per-case loop of `parse_xml_file`, a suite with a
declared time of 10 and one case with time 1 contributes 1 (the last
case's time), not 10, to the per-suite row and to the total. -/
theorem c1_suite_time_shadowing :
    (processFiles [("suite.xml",
        XmlFile.suite ⟨some "S", 1, 0, 0, 10, [⟨"t1", "c", 1, none, none⟩]⟩)]).total_time = 1 ∧
    ((processFiles [("suite.xml",
        XmlFile.suite ⟨some "S", 1, 0, 0, 10, [⟨"t1", "c", 1, none, none⟩]⟩)]).all_results.map
        SuiteResult.time) = [1] ∧
    (XmlSuiteElem.mk (some "S") 1 0 0 10 [⟨"t1", "c", 1, none, none⟩]).time = 10 ∧
    ((1 : Rat) ≠ (10 : Rat)) := by
  refine ⟨?_, ?_, rfl, by norm_num⟩ <;>
    simp [processFiles, processStep, parse_xml_file, parseCase]

/-- C2 counterexample: a directory whose only matching file fails to parse
("all unparseable") still produces a report file, contradicting the claim
that no report is written in that case. -/
theorem c2_counterexample :
    ((generate_html_report "results" "out.html"
        [("bad.xml", XmlFile.malformed "not well-formed")] "t").2).isSome = true := rfl

/-- C2 amended: only a directory with NO matching files yields the
"no input" diagnostic and no report; if matching files exist but all fail
to parse, a report IS written, with zero totals and no suites. -/
theorem c2_amended (results_dir output_file now : String)
    (files : List (String × XmlFile)) :
    (files = [] →
      generate_html_report results_dir output_file files now =
        (["No XML files found in " ++ results_dir], none)) ∧
    (files ≠ [] → (∀ fp ∈ files, (parse_xml_file fp.1 fp.2).2 = none) →
      ∃ d : ReportData,
        (generate_html_report results_dir output_file files now).2 = some d ∧
        d.all_results = [] ∧ d.total_tests = 0 ∧ d.total_failures = 0 ∧
        d.total_errors = 0 ∧ d.total_time = 0) := by
  constructor
  · intro h
    subst h
    rfl
  · intro hne hall
    have hp : parsedResults files = [] := by
      unfold parsedResults
      exact List.filterMap_eq_nil_iff.mpr hall
    unfold generate_html_report
    rw [if_neg hne]
    refine ⟨_, rfl, ?_, ?_, ?_, ?_, ?_⟩ <;>
      rw [processFiles_spec] <;> simp [hp]

/-- C2 witness: the amended behavior at a concrete directory containing a
single malformed artifact. -/
theorem c2_amended_witness :
    ∃ d : ReportData,
      (generate_html_report "results" "out.html"
          [("bad.xml", XmlFile.malformed "oops")] "t").2 = some d ∧
      d.all_results = [] ∧ d.total_tests = 0 ∧ d.total_failures = 0 ∧
      d.total_errors = 0 ∧ d.total_time = 0 :=
  (c2_amended "results" "out.html" "t"
      [("bad.xml", XmlFile.malformed "oops")]).2 (by decide) (by decide)

/-- C3 counterexample: with a valid argument count, an existing directory
and zero matching artifact files, the report generator prints the
diagnostic but finishes with exit code 0, not a nonzero code. -/
theorem c3_counterexample :
    report_main 2 true "results" [] "t" =
      (0, ["No XML files found in results"], none) := rfl

/-- C3 amended: when the directory exists but contains no matching
artifact files, the generator prints the "No XML files found" diagnostic,
writes no report, and terminates with exit code 0 (the nonzero exits are
reserved for a missing argument or a non-directory). -/
theorem c3_amended (results_dir now : String) :
    report_main 2 true results_dir [] now =
      (0, ["No XML files found in " ++ results_dir], none) := rfl

/-- C4 counterexample: a failure to launch the executable in the first,
asynchronous invocation of the resume scenario (`subprocess.Popen`, which
is not inside any `try`) propagates out of the scenario as an unhandled
exception instead of a boolean verdict. -/
theorem c4_counterexample :
    (test_resume ⟨some "FileNotFoundError", false, 0,
        RunResult.timeout, false, 0⟩).outcome =
      ResumeOutcome.crashed "FileNotFoundError" false := rfl

/-- C4 amended: every process-level failure inside the guarded regions
degrades to a `False` scenario verdict (scenario A's run, each of scenario
B's runs, and scenario C's second run); only an exception from scenario
C's initial unguarded `Popen` escapes the harness. -/
theorem c4_amended_containment :
    (∀ env : HttpEnv, processFailure env.run →
        (test_http_download env).verdict = false) ∧
    (∀ e1 e2 e3 : MultiItemEnv,
        processFailure e1.run ∨ processFailure e2.run ∨ processFailure e3.run →
        (test_multiple_downloads e1 e2 e3).verdict = false) ∧
    (∀ env : ResumeEnv, env.popenExn = none → processFailure env.secondRun →
        (test_resume env).outcome = ResumeOutcome.ok false false) := by
  refine ⟨?_, ?_, ?_⟩
  · intro env h
    rcases env with ⟨run, fe, fs, ct⟩
    cases run with
    | completed rc out err =>
      simp only [processFailure] at h
      simp [test_http_download, h]
    | timeout => rfl
    | raised e => rfl
  · intro e1 e2 e3 h
    have z : (multiItemRun "uuid.json" e1).2.1 = 0 ∨
        (multiItemRun "ip.json" e2).2.1 = 0 ∨
        (multiItemRun "user-agent.json" e3).2.1 = 0 := by
      rcases h with h | h | h
      · refine Or.inl ?_
        rcases e1 with ⟨run, fe⟩
        cases run with
        | completed rc out err =>
          simp only [processFailure] at h
          simp [multiItemRun, h]
        | timeout => rfl
        | raised e => rfl
      · refine Or.inr (Or.inl ?_)
        rcases e2 with ⟨run, fe⟩
        cases run with
        | completed rc out err =>
          simp only [processFailure] at h
          simp [multiItemRun, h]
        | timeout => rfl
        | raised e => rfl
      · refine Or.inr (Or.inr ?_)
        rcases e3 with ⟨run, fe⟩
        cases run with
        | completed rc out err =>
          simp only [processFailure] at h
          simp [multiItemRun, h]
        | timeout => rfl
        | raised e => rfl
    have b1 : (multiItemRun "uuid.json" e1).2.1 ≤ 1 := by
      rcases e1 with ⟨run, fe⟩
      cases run with
      | completed rc out err => by_cases hc : rc = 0 ∧ fe = true <;> simp [multiItemRun, hc]
      | timeout => exact Nat.zero_le 1
      | raised e => exact Nat.zero_le 1
    have b2 : (multiItemRun "ip.json" e2).2.1 ≤ 1 := by
      rcases e2 with ⟨run, fe⟩
      cases run with
      | completed rc out err => by_cases hc : rc = 0 ∧ fe = true <;> simp [multiItemRun, hc]
      | timeout => exact Nat.zero_le 1
      | raised e => exact Nat.zero_le 1
    have b3 : (multiItemRun "user-agent.json" e3).2.1 ≤ 1 := by
      rcases e3 with ⟨run, fe⟩
      cases run with
      | completed rc out err => by_cases hc : rc = 0 ∧ fe = true <;> simp [multiItemRun, hc]
      | timeout => exact Nat.zero_le 1
      | raised e => exact Nat.zero_le 1
    show ((multiItemRun "uuid.json" e1).2.1 + (multiItemRun "ip.json" e2).2.1 +
        (multiItemRun "user-agent.json" e3).2.1 == 3) = false
    cases hb : ((multiItemRun "uuid.json" e1).2.1 + (multiItemRun "ip.json" e2).2.1 +
        (multiItemRun "user-agent.json" e3).2.1 == 3) with
    | false => rfl
    | true =>
      exfalso
      have := eq_of_beq hb
      omega
  · intro env h1 h2
    rcases env with ⟨pe, fe, fs, sr, fex, fsz⟩
    simp only at h1
    subst h1
    cases sr with
    | completed rc out err =>
      simp only [processFailure] at h2
      simp [test_resume, h2]
    | timeout => rfl
    | raised e => rfl

/-- C4 witness: the amended containment at concrete failing environments
(a timeout in scenario A, a nonzero exit in scenario B's first pair, and a
timeout in scenario C's second run). -/
theorem c4_amended_witness :
    (test_http_download ⟨RunResult.timeout, false, 0, ""⟩).verdict = false ∧
    (test_multiple_downloads ⟨RunResult.completed 1 "" "", false⟩
        ⟨RunResult.completed 0 "" "", true⟩
        ⟨RunResult.completed 0 "" "", true⟩).verdict = false ∧
    (test_resume ⟨none, true, 100, RunResult.timeout, false, 0⟩).outcome =
      ResumeOutcome.ok false false := by
  refine ⟨?_, ?_, ?_⟩
  · exact c4_amended_containment.1 ⟨RunResult.timeout, false, 0, ""⟩ trivial
  · exact c4_amended_containment.2.1 ⟨RunResult.completed 1 "" "", false⟩
      ⟨RunResult.completed 0 "" "", true⟩
      ⟨RunResult.completed 0 "" "", true⟩ (Or.inl (by simp [processFailure]))
  · exact c4_amended_containment.2.2 ⟨none, true, 100, RunResult.timeout, false, 0⟩ rfl trivial

/-- C5: with at least one file in the directory, the generated report's
suites and totals come exactly from the parseable artifacts (malformed
files contribute nothing), and every malformed file's parse-error
diagnostic appears on stdout — discovery is never aborted by one. -/
theorem c5_skip_malformed (results_dir output_file now : String)
    (files : List (String × XmlFile)) (h : files ≠ []) :
    ∃ d : ReportData,
      (generate_html_report results_dir output_file files now).2 = some d ∧
      d.all_results = parsedResults files ∧
      d.total_tests = ((parsedResults files).map SuiteResult.tests).sum ∧
      d.total_failures = ((parsedResults files).map SuiteResult.failures).sum ∧
      d.total_errors = ((parsedResults files).map SuiteResult.errors).sum ∧
      d.total_time = ((parsedResults files).map SuiteResult.time).sum ∧
      ∀ fp ∈ files, ∀ e, fp.2 = XmlFile.malformed e →
        ("Error parsing " ++ fp.1 ++ ": " ++ e) ∈
          (generate_html_report results_dir output_file files now).1 := by
  unfold generate_html_report
  rw [if_neg h]
  refine ⟨_, rfl, ?_, ?_, ?_, ?_, ?_, ?_⟩
  · rw [processFiles_spec]
  · rw [processFiles_spec]
  · rw [processFiles_spec]
  · rw [processFiles_spec]
  · rw [processFiles_spec]
  · intro fp hfp e he
    apply List.mem_append_left
    rw [processFiles_spec]
    show _ ∈ (files.map fun fp => (parse_xml_file fp.1 fp.2).1).flatten
    apply List.mem_flatten.mpr
    refine ⟨(parse_xml_file fp.1 fp.2).1, List.mem_map_of_mem _ hfp, ?_⟩
    rw [he]
    simp [parse_xml_file]

/-- C5 witness: a directory with one malformed and one valid artifact. -/
theorem c5_witness :
    ∃ d : ReportData,
      (generate_html_report "results" "out.html"
          [("bad.xml", XmlFile.malformed "boom"),
           ("ok.xml", XmlFile.suite ⟨some "S", 2, 1, 0, 3, []⟩)] "t").2 = some d ∧
      d.all_results = parsedResults
          [("bad.xml", XmlFile.malformed "boom"),
           ("ok.xml", XmlFile.suite ⟨some "S", 2, 1, 0, 3, []⟩)] ∧
      d.total_tests = ((parsedResults
          [("bad.xml", XmlFile.malformed "boom"),
           ("ok.xml", XmlFile.suite ⟨some "S", 2, 1, 0, 3, []⟩)]).map SuiteResult.tests).sum ∧
      d.total_failures = ((parsedResults
          [("bad.xml", XmlFile.malformed "boom"),
           ("ok.xml", XmlFile.suite ⟨some "S", 2, 1, 0, 3, []⟩)]).map SuiteResult.failures).sum ∧
      d.total_errors = ((parsedResults
          [("bad.xml", XmlFile.malformed "boom"),
           ("ok.xml", XmlFile.suite ⟨some "S", 2, 1, 0, 3, []⟩)]).map SuiteResult.errors).sum ∧
      d.total_time = ((parsedResults
          [("bad.xml", XmlFile.malformed "boom"),
           ("ok.xml", XmlFile.suite ⟨some "S", 2, 1, 0, 3, []⟩)]).map SuiteResult.time).sum ∧
      ∀ fp ∈ [("bad.xml", XmlFile.malformed "boom"),
              ("ok.xml", XmlFile.suite ⟨some "S", 2, 1, 0, 3, []⟩)],
        ∀ e, fp.2 = XmlFile.malformed e →
          ("Error parsing " ++ fp.1 ++ ": " ++ e) ∈
            (generate_html_report "results" "out.html"
                [("bad.xml", XmlFile.malformed "boom"),
                 ("ok.xml", XmlFile.suite ⟨some "S", 2, 1, 0, 3, []⟩)] "t").1 :=
  c5_skip_malformed "results" "out.html" "t"
    [("bad.xml", XmlFile.malformed "boom"),
     ("ok.xml", XmlFile.suite ⟨some "S", 2, 1, 0, 3, []⟩)] (by decide)

/-- C6 counterexample: the code emits a failure-detail entry whenever
`failures > 0 or errors > 0`, not when `failures + errors > 0`: a suite
with declared `failures = 2`, `errors = -5` (sum not positive) still gets
a nonempty detail contribution. -/
theorem c6_counterexample :
    suiteDetailHtml { name := "s", tests := 1, failures := 2, errors := -5, time := 0,
                      test_cases := [⟨"t", "c", 0, "FAIL", "m"⟩] } ≠ "" ∧
    ¬((({ name := "s", tests := 1, failures := 2, errors := -5, time := 0,
          test_cases := [⟨"t", "c", 0, "FAIL", "m"⟩] } : SuiteResult).failures +
        ({ name := "s", tests := 1, failures := 2, errors := -5, time := 0,
           test_cases := [⟨"t", "c", 0, "FAIL", "m"⟩] } : SuiteResult).errors) > 0) := by
  constructor
  · decide
  · decide

/-- C6 amended: for suite lists whose declared failure and error counts
are non-negative (the only inputs on which `failures > 0 or errors > 0`
coincides with `failures + errors > 0`), the rendered failure-detail
section contains an entry for a suite exactly when
`failures + errors > 0`, and for such a suite it lists exactly the
non-PASS case entries, in order. -/
theorem c6_amended (all_results : List SuiteResult)
    (h : ∀ r ∈ all_results, 0 ≤ r.failures ∧ 0 ≤ r.errors) :
    detailSectionHtml all_results = detailSectionSpec all_results := by
  unfold detailSectionHtml detailSectionSpec
  rw [foldl_append_str suiteDetailHtml all_results ""]
  rw [String.empty_append]
  congr 1
  apply List.map_congr_left
  intro r hr
  have hf := (h r hr).1
  have he := (h r hr).2
  unfold suiteDetailHtml suiteDetailSpec
  have hiff : (r.failures > 0 ∨ r.errors > 0) ↔ r.failures + r.errors > 0 := by omega
  rw [if_congr hiff rfl rfl]
  by_cases hc : r.failures + r.errors > 0
  · rw [if_pos hc, if_pos hc]
    rw [foldl_append_filter_str (fun tc : TestCaseResult => tc.status ≠ "PASS")
      caseDetailHtml r.test_cases ""]
    rw [String.empty_append, String.append_assoc]
  · rw [if_neg hc, if_neg hc]

/-- C6 witness: the amended equality at a concrete suite with one PASS,
one FAIL and one ERROR case. -/
theorem c6_amended_witness :
    detailSectionHtml [⟨"s1", 3, 1, 1, 2,
        [⟨"p", "c", 1, "PASS", ""⟩, ⟨"f", "c", 1, "FAIL", "boom"⟩,
         ⟨"e", "c", 1, "ERROR", "bad"⟩]⟩] =
    detailSectionSpec [⟨"s1", 3, 1, 1, 2,
        [⟨"p", "c", 1, "PASS", ""⟩, ⟨"f", "c", 1, "FAIL", "boom"⟩,
         ⟨"e", "c", 1, "ERROR", "bad"⟩]⟩] :=
  c6_amended _ (by decide)

/-- C7: every rendered suite row shows `tests - failures - errors` as its
passed count, unclamped, and the summary block computes its total passed
count by the same subtraction over the totals; in particular a suite with
`tests = 1`, `failures = 2`, `errors = 0` renders the value -1. -/
theorem c7_passed_identity :
    (∀ r : SuiteResult, suiteRowHtml r =
        rowPart1 ++ r.name ++ rowPart2 ++ toString r.tests ++
        rowPart3 ++ toString (r.tests - r.failures - r.errors) ++
        rowPart4 ++ toString r.failures ++ rowPart5 ++ toString r.errors ++
        rowPart6 ++ fmtFixed 2 r.time ++ rowPart7) ∧
    (∀ (total_tests total_failures total_errors : Int) (total_time : Rat),
        htmlHead total_tests total_failures total_errors total_time =
          headPart1 ++ toString total_tests ++
          headPart2 ++ toString (total_tests - total_failures - total_errors) ++
          headPart3 ++ toString total_failures ++
          headPart4 ++ toString total_errors ++
          headPart5 ++ fmtFixed 2 total_time ++ headPart6) ∧
    suiteRowHtml ⟨"suite_a", 1, 2, 0, 0, []⟩ =
      rowPart1 ++ "suite_a" ++ rowPart2 ++ "1" ++ rowPart3 ++ "-1" ++
      rowPart4 ++ "2" ++ rowPart5 ++ "0" ++ rowPart6 ++ "0.00" ++ rowPart7 := by
  refine ⟨fun r => rfl, fun tt tf te tm => rfl, by decide⟩

/-- C8: on every path, each scenario's destination files are gone by the
time the scenario returns — scenario A and scenario C run their removal
in a `finally`, scenario B removes each destination in its per-item
`finally` (and on scenario C's crash path no file was ever created). -/
theorem c8_cleanup_guarantee :
    (∀ env : HttpEnv, (test_http_download env).fileAfter = false) ∧
    (∀ e1 e2 e3 : MultiItemEnv,
        (test_multiple_downloads e1 e2 e3).filesAfter = [false, false, false]) ∧
    (∀ env : ResumeEnv, (test_resume env).outcome.fileLeft = false) := by
  refine ⟨fun env => rfl, fun e1 e2 e3 => rfl, fun env => ?_⟩
  rcases env with ⟨pe, fe, fs, sr, fex, fsz⟩
  cases pe <;> rfl

/-- C9: when the setup checks pass and scenario C's launch does not crash,
the harness runs all three scenarios in order A, B, C regardless of their
individual verdicts, reports each verdict, and exits 0 iff all three
passed. -/
theorem c9_collect_all (buildReachable cliExists : Bool) (ha : HttpEnv)
    (e1 e2 e3 : MultiItemEnv) (hr : ResumeEnv)
    (h1 : buildReachable = true) (h2 : cliExists = true)
    (h3 : hr.popenExn = none) :
    ∃ c : Bool,
      (test_resume hr).outcome = ResumeOutcome.ok c false ∧
      ∃ code : Int,
        harness_main buildReachable cliExists ha e1 e2 e3 hr =
          HarnessOutcome.exited code
            [("Basic HTTP Download", (test_http_download ha).verdict),
             ("Multiple Downloads", (test_multiple_downloads e1 e2 e3).verdict),
             ("Resume Functionality", c)] ∧
        (code = 0 ↔ ((test_http_download ha).verdict = true ∧
                     (test_multiple_downloads e1 e2 e3).verdict = true ∧ c = true)) := by
  subst h1
  subst h2
  rcases hr with ⟨pe, fe, fs, sr, fex, fsz⟩
  simp only at h3
  subst h3
  obtain ⟨c, hc⟩ : ∃ c, (test_resume ⟨none, fe, fs, sr, fex, fsz⟩).outcome =
      ResumeOutcome.ok c false := ⟨_, rfl⟩
  refine ⟨c, hc, ?_⟩
  unfold harness_main
  rw [hc]
  refine ⟨_, rfl, ?_⟩
  cases hA : (test_http_download ha).verdict <;>
    cases hB : (test_multiple_downloads e1 e2 e3).verdict <;>
      cases c <;> simp [List.filter]

/-- C9 witness: the collect-all behavior at a concrete run in which all
three scenarios succeed. -/
theorem c9_collect_all_witness :
    ∃ c : Bool,
      (test_resume ⟨none, false, 0, RunResult.completed 0 "" "", true, 1024⟩).outcome =
        ResumeOutcome.ok c false ∧
      ∃ code : Int,
        harness_main true true ⟨RunResult.completed 0 "" "", true, 5, "body"⟩
            ⟨RunResult.completed 0 "" "", true⟩ ⟨RunResult.completed 0 "" "", true⟩
            ⟨RunResult.completed 0 "" "", true⟩
            ⟨none, false, 0, RunResult.completed 0 "" "", true, 1024⟩ =
          HarnessOutcome.exited code
            [("Basic HTTP Download",
                (test_http_download ⟨RunResult.completed 0 "" "", true, 5, "body"⟩).verdict),
             ("Multiple Downloads",
                (test_multiple_downloads ⟨RunResult.completed 0 "" "", true⟩
                    ⟨RunResult.completed 0 "" "", true⟩
                    ⟨RunResult.completed 0 "" "", true⟩).verdict),
             ("Resume Functionality", c)] ∧
        (code = 0 ↔
          ((test_http_download ⟨RunResult.completed 0 "" "", true, 5, "body"⟩).verdict = true ∧
           (test_multiple_downloads ⟨RunResult.completed 0 "" "", true⟩
               ⟨RunResult.completed 0 "" "", true⟩
               ⟨RunResult.completed 0 "" "", true⟩).verdict = true ∧
           c = true)) :=
  c9_collect_all true true ⟨RunResult.completed 0 "" "", true, 5, "body"⟩
    ⟨RunResult.completed 0 "" "", true⟩ ⟨RunResult.completed 0 "" "", true⟩
    ⟨RunResult.completed 0 "" "", true⟩
    ⟨none, false, 0, RunResult.completed 0 "" "", true, 1024⟩ rfl rfl rfl

/-- C10: a case element carrying both a `<failure>` and an `<error>`
child parses without failing: the failure branch first sets status FAIL
with the failure message, and the error branch then overwrites both, so
the case ends with status ERROR and the error marker's message, the
failure marker's message being discarded; the surrounding suite parses to
a result (not `None`) with no diagnostics. -/
theorem c10_both_markers (nm cn mf me : String) (t : Rat) :
    parseCase ⟨nm, cn, t, some mf, some me⟩ =
      { name := nm, classname := cn, time := t, status := "ERROR", message := me } ∧
    parse_xml_file "f.xml"
        (XmlFile.suite ⟨some "S", 1, 0, 1, 2, [⟨nm, cn, t, some mf, some me⟩]⟩) =
      ([], some { name := "S", tests := 1, failures := 0, errors := 1, time := t,
                  test_cases := [{ name := nm, classname := cn, time := t,
                                   status := "ERROR", message := me }] }) :=
  ⟨rfl, rfl⟩
